import Mathlib

/-!
Shallow embedding of `ai_insight.py` (SiteInsightAI): the `SiteInformation`
record class and the `SitesInformation` catalog class, with its operations
`_initialize_sites`, `remove_nsfw_sites`, `site_name_list` and
`detect_anomalies`, plus the source-resolution logic of
`SitesInformation.__init__`.

Python strings are modelled as Lean `String`; the handful of string
operations the source uses (`str.lower`, `str.casefold`, `str.endswith`,
`str.startswith`, list sorting with a key, and the two regular expressions
of `detect_anomalies`) are modelled by executable functions over `List Char`
so that every definition evaluates inside the kernel.  JSON values are
modelled by the inductive `JValue` (the source receives them from
`json.load` / `response.json()`).
-/

/-! ## Python string primitives -/

/-- Model of `str.lower` on one character.  The source only ever lowers
ASCII file paths and site names; Python lowers `A`–`Z` (code points 65–90)
to `a`–`z` by adding 32.  (Python also lowers non-ASCII letters; none of
the properties below exercise that.) -/
def lowerChar (c : Char) : Char :=
  if 65 ≤ c.toNat ∧ c.toNat ≤ 90 then Char.ofNat (c.toNat + 32) else c

/-- Model of `str.lower`. -/
def pyLower (s : String) : String := ⟨s.data.map lowerChar⟩

/-- Model of `str.casefold`, used by `remove_nsfw_sites`.  On ASCII data
`casefold` coincides with `lower`. -/
def pyCasefold (s : String) : String := pyLower s

/-- Lexicographic comparison of two character sequences by Unicode code
point, the order Python uses when comparing strings during `sorted`. -/
def lexLe : List Char → List Char → Bool
  | [], _ => true
  | _ :: _, [] => false
  | a :: as, b :: bs =>
      if a.toNat < b.toNat then true
      else if b.toNat < a.toNat then false
      else lexLe as bs

/-- The comparison performed by `sorted(..., key=str.lower)` in
`site_name_list`: compare the lowered strings. -/
def lowerLe (a b : String) : Prop := lexLe (pyLower a).data (pyLower b).data = true

instance : DecidableRel lowerLe := fun x y =>
  inferInstanceAs (Decidable (lexLe (pyLower x).data (pyLower y).data = true))

/-- Model of `str.startswith`. -/
def charsStartWith : List Char → List Char → Bool
  | _, [] => true
  | [], _ :: _ => false
  | c :: cs, d :: ds => c = d && charsStartWith cs ds

/-- Model of `str.startswith` on strings. -/
def pyStartsWith (s pre : String) : Bool := charsStartWith s.data pre.data

/-- Model of `str.endswith`: the reversed suffix must be a prefix of the
reversed string. -/
def pyEndsWith (s suffix : String) : Bool :=
  charsStartWith s.data.reverse suffix.data.reverse

/-! ## JSON values -/

/-- A parsed JSON value, as handed to the catalog code by `json.load` /
`response.json()`.  Objects are association lists in document order
(Python `dict`s preserve insertion order); numbers are modelled as
integers (no property below depends on floats). -/
inductive JValue where
  | str (s : String)
  | num (n : Int)
  | bool (b : Bool)
  | null
  | arr (xs : List JValue)
  | obj (fields : List (String × JValue))

/-- Python truthiness (`if self.sites[site].is_nsfw`): empty/zero/`None`
values are falsy, everything else is truthy. -/
def truthy : JValue → Bool
  | .str s => s ≠ ""
  | .num n => n ≠ 0
  | .bool b => b
  | .null => false
  | .arr xs => !xs.isEmpty
  | .obj fs => !fs.isEmpty

/-- Python `dict` subscript / `in`, on the association-list model: the
value under the first matching key, if any.  (`json.load` produces unique
keys, so first match and last match agree.) -/
def alistGet (k : String) : List (String × JValue) → Option JValue
  | [] => none
  | (k2, v) :: rest => if k2 = k then some v else alistGet k rest

/-! ## Site Record: `SiteInformation` -/

/-- One record of the catalog, the fields that `SiteInformation.__init__`
stores on `self` (lines 49–56 of the source).  Field values other than
`name` and `username_unclaimed` are whatever JSON values the dataset held,
so they are `JValue`s. -/
structure SiteInformation where
  name : String
  url_home : JValue
  url_username_format : JValue
  username_claimed : JValue
  username_unclaimed : String
  information : List (String × JValue)
  is_nsfw : JValue

/-- Model of calling `SiteInformation(...)`.

Python evaluates the default-argument expression
`username_unclaimed=secrets.token_urlsafe(10)` ONCE, when the `def
__init__` line is executed at class-definition time; every later call that
omits the argument reuses that single value.  `class_default_token` stands
for the one token produced by that single call (randomness abstracted as
an arbitrary string); a caller passing the argument supplies `some t`,
a caller omitting it supplies `none`. -/
def mkSiteInformation (class_default_token : String) (name : String)
    (url_home url_username_format username_claimed : JValue)
    (information : List (String × JValue)) (is_nsfw : JValue)
    (username_unclaimed : Option String) : SiteInformation :=
  { name := name
    url_home := url_home
    url_username_format := url_username_format
    username_claimed := username_claimed
    username_unclaimed := username_unclaimed.getD class_default_token
    information := information
    is_nsfw := is_nsfw }

/-! ## Catalog construction: `_initialize_sites` -/

/-- Outcome of processing one raw entry inside the `try` of
`_initialize_sites`: a constructed record, a `KeyError` on a required
attribute (re-raised as a fatal `ValueError`), or a `TypeError` because the
entry is not a mapping and cannot be subscripted (caught: the target is
skipped with a printed diagnostic). -/
inductive EntryResult where
  | ok (s : SiteInformation)
  | missing (attr : String)
  | typeError

/-- Process one raw entry the way lines 152–160 do.  For a mapping, the
three required subscripts are evaluated in source order (`urlMain`, then
`url`, then `username_claimed`); the first absent key raises `KeyError`.
For a non-mapping (string, number, list, boolean, null), subscripting by a
string raises `TypeError`. -/
def initEntry (class_default_token : String) (site_name : String) : JValue → EntryResult
  | .obj fields =>
      match alistGet "urlMain" fields, alistGet "url" fields,
            alistGet "username_claimed" fields with
      | none, _, _ => .missing "urlMain"
      | some _, none, _ => .missing "url"
      | some _, some _, none => .missing "username_claimed"
      | some um, some u, some uc =>
          .ok (mkSiteInformation class_default_token site_name um u uc fields
                ((alistGet "isNSFW" fields).getD (.bool false)) none)
  | _ => .typeError

/-- The message of the fatal `ValueError` raised for a missing required
attribute (line 162–164; Python additionally wraps the attribute name in
quotes via the `KeyError` repr). -/
def missingMsg (attr : String) : String :=
  "Problem parsing json contents: Missing attribute " ++ attr ++ "."

/-- Model of `_initialize_sites` over the raw top-level entries in document
order.  Result on success: the catalog entries in insertion order, plus the
names of the skipped (non-mapping) targets, for which the source prints a
non-fatal diagnostic.  A missing required attribute aborts the whole build
with the fatal `ValueError`. -/
def initializeSites (class_default_token : String) :
    List (String × JValue) → Except String (List (String × SiteInformation) × List String)
  | [] => .ok ([], [])
  | (site_name, e) :: rest =>
      match initEntry class_default_token site_name e with
      | .missing attr => .error (missingMsg attr)
      | .ok s =>
          match initializeSites class_default_token rest with
          | .ok (sites, skips) => .ok ((site_name, s) :: sites, skips)
          | .error msg => .error msg
      | .typeError =>
          match initializeSites class_default_token rest with
          | .ok (sites, skips) => .ok (sites, site_name :: skips)
          | .error msg => .error msg

/-- Whether a raw entry is a mapping (subscripting it by a string cannot
raise `TypeError`). -/
def isObjEntry : JValue → Bool
  | .obj _ => true
  | _ => false

/-- Whether a raw entry makes the build abort: a mapping that lacks one of
the three required attributes. -/
def entryFatal (class_default_token : String) (site_name : String) (e : JValue) : Bool :=
  match initEntry class_default_token site_name e with
  | .missing _ => true
  | _ => false

/-! ## `remove_nsfw_sites` -/

/-- Model of `remove_nsfw_sites` (lines 168–185): rebuild the catalog
keeping a site unless its `is_nsfw` attribute is truthy and its case-folded
key is not among the case-folded `do_not_remove` names.  The catalog is an
insertion-ordered association list, so the rebuild is a filter. -/
def remove_nsfw_sites (sites : List (String × SiteInformation))
    (do_not_remove : List String) : List (String × SiteInformation) :=
  let dnr := do_not_remove.map pyCasefold
  sites.filter (fun p => !(truthy p.2.is_nsfw && !(decide (pyCasefold p.1 ∈ dnr))))

/-! ## `site_name_list` -/

/-- Model of `site_name_list` (line 197): the `name` of every record, in a
stable sort by the lowered name (`sorted(..., key=str.lower)`; Python's
sort is stable, as is `List.insertionSort`, and two stable sorts under the
same total preorder produce the same output). -/
def site_name_list (sites : List (String × SiteInformation)) : List String :=
  List.insertionSort lowerLe (sites.map (fun p => p.2.name))

/-! ## `detect_anomalies` and its two regular expressions -/

/-- Python whitespace for `\S` (the characters `str.isspace` reports in
ASCII): space, tab, newline, carriage return, vertical tab, form feed. -/
def isPySpace (c : Char) : Bool :=
  c = ' ' || c = '\t' || c = '\n' || c = '\r' || c = '\x0b' || c = '\x0c'

/-- Python word character for `\w`, ASCII part: letters, digits,
underscore.  (Python's `\w` also accepts non-ASCII letters; no property
below exercises that.) -/
def isWordChar (c : Char) : Bool :=
  (48 ≤ c.toNat && c.toNat ≤ 57) || (65 ≤ c.toNat && c.toNat ≤ 90) ||
  (97 ≤ c.toNat && c.toNat ≤ 122) || c = '_'

/-- In Python regular expressions, `$` matches at the end of the string or
just before a single trailing newline; since `\S` and `\w` cannot consume a
newline, a pattern of the form `^body$` matches a string exactly when
`body` matches the whole string after one trailing newline is removed. -/
def stripTrailingNewline (cs : List Char) : List Char :=
  if cs.getLast? = some '\n' then cs.dropLast else cs

/-- True when the sequence has a `.` in some position with at least one
character strictly after it. -/
def dotNotLast : List Char → Bool
  | [] => false
  | [_] => false
  | c :: rest => c = '.' || dotNotLast rest

/-- True when the sequence splits as `a ++ [dot] ++ b` with `a` and `b`
non-empty, i.e. a `.` occurs away from both ends. -/
def interiorDot : List Char → Bool
  | [] => false
  | _ :: rest => dotNotLast rest

/-- Full match of `\S+\.\S+`: every character is non-whitespace (`.` itself
is non-whitespace) and some `.` has at least one character on each side. -/
def urlBody (cs : List Char) : Bool :=
  cs.all (fun c => !isPySpace c) && interiorDot cs

/-- Full-match model of `re.match(r'^https?://\S+\.\S+$', s)`: after the
literal `http` / `https` and `://`, the remainder must match
`\S+\.\S+` (with `$` handled by `stripTrailingNewline`). -/
def matchUrlChars (cs0 : List Char) : Bool :=
  match stripTrailingNewline cs0 with
  | 'h' :: 't' :: 't' :: 'p' :: 's' :: ':' :: '/' :: '/' :: rest => urlBody rest
  | 'h' :: 't' :: 't' :: 'p' :: ':' :: '/' :: '/' :: rest => urlBody rest
  | _ => false

/-- Full-match model of `re.match(r'^\w+$', s)`: non-empty and all word
characters (after `$`'s trailing-newline allowance). -/
def matchWordChars (cs0 : List Char) : Bool :=
  let cs := stripTrailingNewline cs0
  !cs.isEmpty && cs.all isWordChar

/-- The fixed rule table of `detect_anomalies` (lines 227–230), in `dict`
insertion order: the `url` field against the URL shape, then
`username_claimed` against the word shape. -/
def anomalyRules : List (String × (List Char → Bool)) :=
  [("url", matchUrlChars), ("username_claimed", matchWordChars)]

/-- The diagnostic printed on a pattern mismatch (line 235; Python wraps
the site name and the key in single quotes). -/
def anomalyMsg (site_name key : String) : String :=
  "Anomaly detected for site " ++ site_name ++ ": Invalid " ++ key

/-- Run the rule table over one record's `information` mapping, the inner
loop of `detect_anomalies`:  `if key in site.information and not
re.match(pattern, site.information[key])`.  An absent key is skipped; a
present string value yields a diagnostic exactly when the pattern fails; a
present non-string value makes `re.match` raise `TypeError`, which
propagates (second component), after the diagnostics already printed for
earlier keys (first component). -/
def checkKeys (site_name : String) (info : List (String × JValue)) :
    List (String × (List Char → Bool)) → List String × Option String
  | [] => ([], none)
  | (key, pat) :: rest =>
      match alistGet key info with
      | none => checkKeys site_name info rest
      | some (.str s) =>
          let (ds, e) := checkKeys site_name info rest
          (if pat s.data then ds else anomalyMsg site_name key :: ds, e)
      | some _ => ([], some "TypeError: expected string or bytes-like object")

/-- Model of `detect_anomalies` (lines 218–235): visit every record in
catalog order, printing a diagnostic per failing rule; the function only
reads the catalog.  First component: the diagnostics printed, in order;
second component: the uncaught exception, if one was raised (processing
stops there, as in Python). -/
def detect_anomalies (sites : List (String × SiteInformation)) :
    List String × Option String :=
  match sites with
  | [] => ([], none)
  | (_, site) :: rest =>
      match checkKeys site.name site.information anomalyRules with
      | (ds, some err) => (ds, some err)
      | (ds, none) =>
          let (ds2, e2) := detect_anomalies rest
          (ds ++ ds2, e2)

/-! ## Source resolution in `SitesInformation.__init__` -/

/-- The first externally visible action `SitesInformation.__init__` takes
for a given `data_file_path` argument (lines 106–134): either it raises the
bad-extension `FileNotFoundError` (the spec's `InvalidSourceError`) before
touching any file or socket, or it performs its first I/O — a `requests.get`
of a URL or an `open` of a local path. -/
inductive LoadAction where
  | invalidSource (msg : String)
  | fetchUrl (u : String)
  | openFile (p : String)
deriving DecidableEq

/-- The default dataset URL substituted when no path is supplied
(line 107). -/
def defaultDataUrl : String :=
  "https://raw.githubusercontent.com/sherlock-project/sherlock/master/sherlock_project/resources/data.json"

/-- Model of lines 106–134 of `SitesInformation.__init__` up to the first
I/O.  `none` models passing no argument; Python's `if not data_file_path`
also treats the empty string as absent, substituting the default URL.  Then
the extension is checked on the lowered path before any fetch or open, and
the `http` prefix of the lowered path selects network fetch over file
open. -/
def loadPlan (data_file_path : Option String) : LoadAction :=
  let p := match data_file_path with
           | none => defaultDataUrl
           | some s => if s = "" then defaultDataUrl else s
  if pyEndsWith (pyLower p) ".json" = false then
    .invalidSource ("Incorrect JSON file extension for data file " ++ p ++ ".")
  else if pyStartsWith (pyLower p) "http" then .fetchUrl p
  else .openFile p

/-! ## Concrete datasets and records used by the closed theorems below -/

/-- A raw entry whose `urlMain` is not a URL but whose `url` and
`username_claimed` are well formed. -/
def demoInfoA : List (String × JValue) :=
  [("urlMain", .str "not a url"), ("url", .str "https://a.b/u"),
   ("username_claimed", .str "admin")]

/-- A raw entry with all required fields well formed and `isNSFW` set. -/
def demoInfoB : List (String × JValue) :=
  [("urlMain", .str "https://b.cc"), ("url", .str "https://b.cc/u"),
   ("username_claimed", .str "bob"), ("isNSFW", .bool true)]

/-- A dataset with two mapping entries and one structurally corrupt
(non-mapping) entry. -/
def rawGood : List (String × JValue) :=
  [("SiteA", .obj demoInfoA), ("Junk", .str "noise"), ("SiteB", .obj demoInfoB)]

/-- A dataset whose single mapping entry lacks the required `urlMain`. -/
def rawBad : List (String × JValue) :=
  [("SiteC", JValue.obj [("url", .str "https://c.cc/u"),
                         ("username_claimed", .str "carl")])]

/-- The record `_initialize_sites` builds for `SiteA` of `rawGood`. -/
def builtSiteA : SiteInformation :=
  mkSiteInformation "tok0" "SiteA" (.str "not a url") (.str "https://a.b/u")
    (.str "admin") demoInfoA (.bool false) none

/-- The record `_initialize_sites` builds for `SiteB` of `rawGood`. -/
def builtSiteB : SiteInformation :=
  mkSiteInformation "tok0" "SiteB" (.str "https://b.cc") (.str "https://b.cc/u")
    (.str "bob") demoInfoB (.bool true) none

/-- A record whose `url` field (the username-URL template) fails the URL
shape. -/
def anomalousUrlSite : SiteInformation :=
  mkSiteInformation "tok0" "BadUrl" (.str "x") (.str "not a url") (.str "admin")
    [("url", .str "not a url"), ("username_claimed", .str "admin")]
    (.bool false) none

/-- A record whose `url` field holds a non-string JSON value. -/
def nonStringUrlSite : SiteInformation :=
  mkSiteInformation "tok0" "NonStr" (.str "x") (.num 5) (.str "admin")
    [("url", JValue.num 5), ("username_claimed", .str "admin")]
    (.bool false) none

/-- A sensitive record named `x`. -/
def sensSiteX : SiteInformation :=
  mkSiteInformation "tok0" "x" (.str "https://x.cc") (.str "https://x.cc/u")
    (.str "ann") [("isNSFW", .bool true)] (.bool true) none

/-- A non-sensitive record named `n`. -/
def plainSiteN : SiteInformation :=
  mkSiteInformation "tok0" "n" (.str "https://n.cc") (.str "https://n.cc/u")
    (.str "ned") [] (.bool false) none

/-- A record named `B` (upper case). -/
def siteNamedB : SiteInformation :=
  mkSiteInformation "tok0" "B" (.str "https://b.cc") (.str "https://b.cc/u")
    (.str "bob") [] (.bool false) none

/-- A record named `a` (lower case). -/
def siteNamedA : SiteInformation :=
  mkSiteInformation "tok0" "a" (.str "https://a.cc") (.str "https://a.cc/u")
    (.str "ann") [] (.bool false) none

/-- A two-record catalog whose names sort case-insensitively. -/
def demoSites : List (String × SiteInformation) :=
  [("B", siteNamedB), ("a", siteNamedA)]

/-! ## Helper lemmas -/

theorem lexLe_total (as bs : List Char) : lexLe as bs = true ∨ lexLe bs as = true := by
  induction as generalizing bs with
  | nil => left; rfl
  | cons a as ih =>
      cases bs with
      | nil => right; rfl
      | cons b bs =>
          simp only [lexLe]
          rcases Nat.lt_trichotomy a.toNat b.toNat with h | h | h
          · left; rw [if_pos h]
          · rw [if_neg (by omega : ¬ a.toNat < b.toNat),
                if_neg (by omega : ¬ b.toNat < a.toNat),
                if_neg (by omega : ¬ b.toNat < a.toNat),
                if_neg (by omega : ¬ a.toNat < b.toNat)]
            exact ih bs
          · right; rw [if_pos h]

theorem lexLe_trans (as : List Char) : ∀ bs cs : List Char,
    lexLe as bs = true → lexLe bs cs = true → lexLe as cs = true := by
  induction as with
  | nil => intro bs cs _ _; rfl
  | cons a as ih =>
      intro bs cs h1 h2
      cases bs with
      | nil => simp [lexLe] at h1
      | cons b bs =>
          cases cs with
          | nil => simp [lexLe] at h2
          | cons c cs =>
              simp only [lexLe] at h1 h2 ⊢
              split_ifs at h1 h2 ⊢ <;>
                first
                  | rfl
                  | omega
                  | exact ih bs cs h1 h2

instance : IsTotal String lowerLe :=
  ⟨fun a b => lexLe_total (pyLower a).data (pyLower b).data⟩

instance : IsTrans String lowerLe :=
  ⟨fun a b c => lexLe_trans (pyLower a).data (pyLower b).data (pyLower c).data⟩

/-! ## Claims -/

/-- Claim C2 (code bug): the default `username_unclaimed=secrets.token_urlsafe(10)`
is evaluated once, when `def __init__` is processed, so every construction
that omits the argument — whatever its other arguments — receives the same
token; records do NOT each get a freshly generated token, contradicting the
spec's per-construction requirement. -/
theorem default_token_shared (class_default_token : String)
    (n1 n2 : String) (a1 a2 a3 b1 b2 b3 : JValue)
    (i1 i2 : List (String × JValue)) (f1 f2 : JValue) :
    (mkSiteInformation class_default_token n1 a1 a2 a3 i1 f1 none).username_unclaimed
      = (mkSiteInformation class_default_token n2 b1 b2 b3 i2 f2 none).username_unclaimed :=
  rfl

/-- Claim C5 (counterexample): the empty-string source identifier does not
end in `.json`, yet `loadPlan` does not fail with the invalid-source error;
it proceeds to a network fetch of the default URL, because `if not
data_file_path` treats the empty string as an absent argument. -/
theorem loadPlan_empty_path_fetches :
    loadPlan (some "") = .fetchUrl defaultDataUrl ∧
    pyEndsWith (pyLower "") ".json" = false :=
  ⟨by decide, by decide⟩

/-- Claim C5 (amended): for every NON-EMPTY source identifier that does not
end in `.json` (case-insensitive), the load fails with the bad-extension
error before any fetch or file open is attempted. -/
theorem loadPlan_bad_extension (s : String) (h1 : ¬ s = "")
    (h2 : pyEndsWith (pyLower s) ".json" = false) :
    loadPlan (some s)
      = .invalidSource ("Incorrect JSON file extension for data file " ++ s ++ ".") := by
  simp [loadPlan, h1, h2]

/-- Claim C5 witness: `data.csv` is rejected before any I/O. -/
theorem loadPlan_bad_extension_witness :
    loadPlan (some "data.csv")
      = .invalidSource ("Incorrect JSON file extension for data file " ++ "data.csv" ++ ".") :=
  loadPlan_bad_extension "data.csv" (by decide) (by decide)

/-- Claim C6 (confirmed): `remove_nsfw_sites` is idempotent — applying it
twice with the same keep list leaves the catalog exactly as one
application does. -/
theorem remove_nsfw_sites_idem (sites : List (String × SiteInformation))
    (do_not_remove : List String) :
    remove_nsfw_sites (remove_nsfw_sites sites do_not_remove) do_not_remove
      = remove_nsfw_sites sites do_not_remove := by
  simp only [remove_nsfw_sites, List.filter_filter]
  exact List.filter_congr (fun p _ => by rw [Bool.and_self])

/-- Claim C7 (confirmed): `remove_nsfw_sites` keeps a record exactly when
it is either not sensitive (its `is_nsfw` is falsy) or its case-folded key
is among the case-folded keep names; hence it removes exactly the sensitive
records whose case-folded name is outside the keep set, a sensitive site
named `x` survives when the keep list holds `X`, and a non-sensitive record
is never removed. -/
theorem remove_nsfw_sites_spec (sites : List (String × SiteInformation))
    (keep : List String) :
    (∀ n r, (n, r) ∈ remove_nsfw_sites sites keep ↔
        ((n, r) ∈ sites ∧
          (truthy r.is_nsfw = true → pyCasefold n ∈ keep.map pyCasefold))) ∧
    (∀ r, ("x", r) ∈ sites → "X" ∈ keep →
        ("x", r) ∈ remove_nsfw_sites sites keep) ∧
    (∀ n r, (n, r) ∈ sites → truthy r.is_nsfw = false →
        (n, r) ∈ remove_nsfw_sites sites keep) := by
  have hmem : ∀ n r, (n, r) ∈ remove_nsfw_sites sites keep ↔
      ((n, r) ∈ sites ∧
        (truthy r.is_nsfw = true → pyCasefold n ∈ keep.map pyCasefold)) := by
    intro n r
    simp only [remove_nsfw_sites, List.mem_filter, Bool.not_eq_true',
      Bool.and_eq_false_iff, Bool.not_eq_false', decide_eq_true_eq]
    constructor
    · rintro ⟨hm, h | h⟩
      · exact ⟨hm, fun ht => absurd ht (by simp [h])⟩
      · exact ⟨hm, fun _ => h⟩
    · rintro ⟨hm, h⟩
      refine ⟨hm, ?_⟩
      by_cases ht : truthy r.is_nsfw = true
      · exact Or.inr (h ht)
      · exact Or.inl (by simpa using ht)
  refine ⟨hmem, ?_, ?_⟩
  · intro r hr hX
    exact (hmem "x" r).mpr ⟨hr, fun _ => List.mem_map.mpr ⟨"X", hX, by decide⟩⟩
  · intro n r hr hf
    exact (hmem n r).mpr ⟨hr, fun ht => absurd ht (by simp [hf])⟩

/-- Claim C7 witness: with keep list `[X]`, the sensitive site keyed `x`
survives, and a non-sensitive site survives an empty keep list. -/
theorem remove_nsfw_sites_spec_witness :
    ("x", sensSiteX) ∈ remove_nsfw_sites [("x", sensSiteX)] ["X"] ∧
    ("n", plainSiteN) ∈ remove_nsfw_sites [("n", plainSiteN)] [] :=
  ⟨(remove_nsfw_sites_spec [("x", sensSiteX)] ["X"]).2.1 sensSiteX
      (List.mem_singleton.mpr rfl) (List.mem_singleton.mpr rfl),
   (remove_nsfw_sites_spec [("n", plainSiteN)] []).2.2 "n" plainSiteN
      (List.mem_singleton.mpr rfl) rfl⟩

/-- Claim C8 (confirmed): on a catalog whose keys are distinct and name
their records (the invariant `_initialize_sites` establishes),
`site_name_list` returns exactly the entries' names — a permutation of the
keys, without duplicates — sorted case-insensitively (every pair of
adjacent-or-apart elements is ordered by the lowered strings). -/
theorem site_name_list_spec (sites : List (String × SiteInformation))
    (h1 : (sites.map Prod.fst).Nodup)
    (h2 : ∀ p ∈ sites, (Prod.snd p).name = p.1) :
    (site_name_list sites).Perm (sites.map Prod.fst) ∧
    (site_name_list sites).Nodup ∧
    (site_name_list sites).Pairwise lowerLe := by
  have hmap : sites.map (fun p => p.2.name) = sites.map Prod.fst :=
    List.map_congr_left h2
  have hperm : (site_name_list sites).Perm (sites.map Prod.fst) := by
    unfold site_name_list
    rw [hmap]
    exact List.perm_insertionSort lowerLe (sites.map Prod.fst)
  refine ⟨hperm, hperm.symm.nodup h1, ?_⟩
  exact List.sorted_insertionSort lowerLe (sites.map (fun p => p.2.name))

/-- Claim C8 witness: the demo catalog has distinct keys naming their
records, and its name list is a duplicate-free, case-insensitively sorted
permutation of the keys. -/
theorem site_name_list_spec_witness :
    (site_name_list demoSites).Perm (demoSites.map Prod.fst) ∧
    (site_name_list demoSites).Nodup ∧
    (site_name_list demoSites).Pairwise lowerLe :=
  site_name_list_spec demoSites (by decide) (by decide)

/-- Whether re-matching the value under a key can proceed: absent keys are
skipped by the `in` guard, string values are matched, any other present
value makes `re.match` raise `TypeError`. -/
def strOk : Option JValue → Bool
  | some (.str _) => true
  | some _ => false
  | none => true

theorem checkKeys_rules_no_raise (n : String) (info : List (String × JValue))
    (hu : strOk (alistGet "url" info) = true)
    (hc : strOk (alistGet "username_claimed" info) = true) :
    (checkKeys n info anomalyRules).snd = none := by
  cases e1 : alistGet "url" info with
  | none =>
      cases e2 : alistGet "username_claimed" info with
      | none => simp [checkKeys, anomalyRules, e1, e2]
      | some v =>
          rw [e2] at hc
          cases v <;> simp_all [checkKeys, anomalyRules, e1, e2, strOk]
  | some v =>
      rw [e1] at hu
      cases v <;> simp_all [strOk]
      cases e2 : alistGet "username_claimed" info with
      | none => simp [checkKeys, anomalyRules, e1, e2]
      | some w =>
          rw [e2] at hc
          cases w <;> simp_all [checkKeys, anomalyRules, e1, e2, strOk]

/-- Claim C4 (counterexample): a catalog whose record holds the non-string
JSON value `5` under `url` makes `detect_anomalies` raise — `re.match` on
a non-string raises `TypeError` — so detection does NOT tolerate arbitrary
`extra_fields` values. -/
theorem detect_anomalies_raises_on_non_string :
    detect_anomalies [("NonStr", nonStringUrlSite)]
      = ([], some "TypeError: expected string or bytes-like object") := by
  decide

/-- Claim C4 (amended): `detect_anomalies` raises no exception on any
catalog in which every value present under the checked keys `url` and
`username_claimed` is a string; it only reports (the embedding returns the
printed diagnostics and never returns a modified catalog, mirroring the
read-only source loop). -/
theorem detect_anomalies_no_raise_of_strings
    (sites : List (String × SiteInformation))
    (h : ∀ p ∈ sites, strOk (alistGet "url" (Prod.snd p).information) = true ∧
         strOk (alistGet "username_claimed" (Prod.snd p).information) = true) :
    (detect_anomalies sites).snd = none := by
  induction sites with
  | nil => rfl
  | cons p rest ih =>
      obtain ⟨h1, h2⟩ := h p (List.mem_cons_self p rest)
      have hk := checkKeys_rules_no_raise p.2.name p.2.information h1 h2
      obtain ⟨k, site⟩ := p
      simp only [detect_anomalies]
      cases hc : checkKeys site.name site.information anomalyRules with
      | mk ds e =>
          rw [hc] at hk
          simp only at hk
          subst hk
          simp only
          exact ih (fun q hq => h q (List.mem_cons_of_mem _ hq))

/-- Claim C4 witness: on the two-record catalog built from `rawGood`, whose
checked fields are all strings, detection raises nothing. -/
theorem detect_anomalies_no_raise_witness :
    (detect_anomalies [("SiteA", builtSiteA), ("SiteB", builtSiteB)]).snd = none :=
  detect_anomalies_no_raise_of_strings _ (by decide)

/-- Claim C1 (counterexample): `builtSiteA`, whose `home_url` source field
`urlMain` holds `not a url` (which fails the URL shape) while its `url` and
`username_claimed` fields are well formed, produces NO diagnostic at all:
the detector's rule table never checks `urlMain`/`home_url`, only `url` and
`username_claimed`. -/
theorem home_url_not_checked :
    alistGet "urlMain" builtSiteA.information = some (JValue.str "not a url") ∧
    matchUrlChars "not a url".data = false ∧
    detect_anomalies [("SiteA", builtSiteA)] = ([], none) :=
  ⟨rfl, by decide, by decide⟩

/-- Claim C1 (amended): the detector's URL-shape rule applies to the `url`
field (the username-URL template) of `extra_fields`, not to `home_url`:
for a record whose `url` value is a string and whose `username_claimed`
value is a word-shaped string, detection emits exactly one diagnostic —
naming the site and the `url` field — when the `url` value fails the
HTTP(S)-URL shape, and none when it matches. -/
theorem detect_anomalies_url_rule (k : String) (r : SiteInformation)
    (u uc : String)
    (h1 : alistGet "url" r.information = some (.str u))
    (h2 : alistGet "username_claimed" r.information = some (.str uc))
    (h3 : matchWordChars uc.data = true) :
    detect_anomalies [(k, r)]
      = (if matchUrlChars u.data then [] else [anomalyMsg r.name "url"], none) := by
  by_cases hu : matchUrlChars u.data <;>
    simp [detect_anomalies, checkKeys, anomalyRules, h1, h2, h3, hu]

/-- Claim C1 witness: a record whose `url` template is `not a url` gets the
diagnostic naming it and the `url` field. -/
theorem detect_anomalies_url_rule_witness :
    detect_anomalies [("k", anomalousUrlSite)]
      = (if matchUrlChars "not a url".data then []
         else [anomalyMsg anomalousUrlSite.name "url"], none) :=
  detect_anomalies_url_rule "k" anomalousUrlSite "not a url" "admin" rfl rfl (by decide)

theorem initEntry_obj_of_ok {tok n : String} {e : JValue} {s : SiteInformation}
    (h : initEntry tok n e = .ok s) : isObjEntry e = true := by
  cases e <;> simp_all [initEntry, isObjEntry]

theorem initEntry_obj_of_missing {tok n : String} {e : JValue} {attr : String}
    (h : initEntry tok n e = .missing attr) :
    isObjEntry e = true ∧ ∃ fields, e = .obj fields ∧ alistGet attr fields = none ∧
      (attr = "urlMain" ∨ attr = "url" ∨ attr = "username_claimed") := by
  cases e with
  | obj fields =>
      refine ⟨rfl, fields, rfl, ?_⟩
      simp only [initEntry] at h
      split at h
      · injection h with h'; subst h'; exact ⟨by assumption, Or.inl rfl⟩
      · injection h with h'; subst h'; exact ⟨by assumption, Or.inr (Or.inl rfl)⟩
      · injection h with h'; subst h'; exact ⟨by assumption, Or.inr (Or.inr rfl)⟩
      · exact absurd h (by simp)
  | str s1 => simp [initEntry] at h
  | num n1 => simp [initEntry] at h
  | bool b1 => simp [initEntry] at h
  | null => simp [initEntry] at h
  | arr xs => simp [initEntry] at h

theorem initEntry_not_obj_of_typeError {tok n : String} {e : JValue}
    (h : initEntry tok n e = .typeError) : isObjEntry e = false := by
  cases e with
  | obj fields =>
      simp only [initEntry] at h
      split at h <;> simp_all
  | str s1 => rfl
  | num n1 => rfl
  | bool b1 => rfl
  | null => rfl
  | arr xs => rfl

theorem initEntry_ok_spec {tok n : String} {e : JValue} {s : SiteInformation}
    (h : initEntry tok n e = .ok s) :
    ∃ fields, e = .obj fields ∧ s.information = fields ∧
      alistGet "urlMain" fields = some s.url_home ∧
      alistGet "url" fields = some s.url_username_format ∧
      alistGet "username_claimed" fields = some s.username_claimed ∧
      s.is_nsfw = (alistGet "isNSFW" fields).getD (.bool false) := by
  cases e with
  | obj fields =>
      refine ⟨fields, rfl, ?_⟩
      simp only [initEntry] at h
      split at h
      · exact absurd h (by simp)
      · exact absurd h (by simp)
      · exact absurd h (by simp)
      · rename_i um u uc h1 h2 h3
        injection h with h'
        subst h'
        exact ⟨rfl, h1, h2, h3, rfl⟩
  | str s1 => simp [initEntry] at h
  | num n1 => simp [initEntry] at h
  | bool b1 => simp [initEntry] at h
  | null => simp [initEntry] at h
  | arr xs => simp [initEntry] at h

/-- Claim C3 (confirmed): the build succeeds exactly when no mapping entry
lacks a required attribute; on success the constructed records are exactly
the mapping entries in document order (so the catalog size is the number of
syntactically valid entries) while each non-mapping entry is skipped with a
non-fatal diagnostic; on failure the fatal message names one of the three
required attributes, missing from some mapping entry of the dataset. -/
theorem initializeSites_build_spec (tok : String) (raw : List (String × JValue)) :
    ((initializeSites tok raw).isOk
        = raw.all (fun p => !entryFatal tok p.1 p.2)) ∧
    (∀ sites skips, initializeSites tok raw = .ok (sites, skips) →
        sites.map Prod.fst = (raw.filter (fun p => isObjEntry p.2)).map Prod.fst ∧
        sites.length = (raw.filter (fun p => isObjEntry p.2)).length ∧
        skips = (raw.filter (fun p => !isObjEntry p.2)).map Prod.fst) ∧
    (∀ msg, initializeSites tok raw = .error msg → ∃ site_name fields attr,
        (site_name, JValue.obj fields) ∈ raw ∧ alistGet attr fields = none ∧
        (attr = "urlMain" ∨ attr = "url" ∨ attr = "username_claimed") ∧
        msg = missingMsg attr) := by
  induction raw with
  | nil =>
      refine ⟨rfl, ?_, ?_⟩
      · intro sites skips h
        simp only [initializeSites, Except.ok.injEq, Prod.mk.injEq] at h
        obtain ⟨h1, h2⟩ := h
        subst h1; subst h2
        exact ⟨rfl, rfl, rfl⟩
      · intro msg h
        simp [initializeSites] at h
  | cons p rest ih =>
      obtain ⟨name, e⟩ := p
      obtain ⟨ih1, ih2, ih3⟩ := ih
      cases he : initEntry tok name e with
      | missing attr =>
          have hI : initializeSites tok ((name, e) :: rest) = .error (missingMsg attr) := by
            simp [initializeSites, he]
          obtain ⟨hobj, fields, hef, hnone, hattr⟩ := initEntry_obj_of_missing he
          refine ⟨?_, ?_, ?_⟩
          · rw [hI]
            have hf : entryFatal tok name e = true := by simp [entryFatal, he]
            simp [List.all_cons, hf, Except.isOk, Except.toBool]
          · intro sites skips h
            rw [hI] at h
            simp at h
          · intro msg h
            rw [hI] at h
            injection h with h'
            subst hef
            exact ⟨name, fields, attr, List.mem_cons_self _ _, hnone, hattr, h'.symm⟩
      | ok s =>
          have hobj := initEntry_obj_of_ok he
          cases hr : initializeSites tok rest with
          | ok pr =>
              obtain ⟨sites', skips'⟩ := pr
              have hI : initializeSites tok ((name, e) :: rest)
                  = .ok ((name, s) :: sites', skips') := by
                simp [initializeSites, he, hr]
              have hrestOk : (initializeSites tok rest).isOk = true := by rw [hr]; rfl
              obtain ⟨g1, g2, g3⟩ := ih2 sites' skips' hr
              refine ⟨?_, ?_, ?_⟩
              · rw [hI]
                rw [ih1] at hrestOk
                have hf : entryFatal tok name e = false := by simp [entryFatal, he]
                simp [List.all_cons, hf, hrestOk, Except.isOk, Except.toBool]
              · intro sites skips h
                rw [hI] at h
                simp only [Except.ok.injEq, Prod.mk.injEq] at h
                obtain ⟨h1, h2⟩ := h
                subst h1; subst h2
                refine ⟨?_, ?_, ?_⟩
                · simp [List.filter_cons, hobj, g1]
                · simp [List.filter_cons, hobj]
                  have := congrArg List.length g1
                  simpa using this
                · simp [List.filter_cons, hobj, g3]
              · intro msg h
                rw [hI] at h
                simp at h
          | error m =>
              have hI : initializeSites tok ((name, e) :: rest) = .error m := by
                simp [initializeSites, he, hr]
              have hrestBad : (initializeSites tok rest).isOk = false := by rw [hr]; rfl
              refine ⟨?_, ?_, ?_⟩
              · rw [hI]
                rw [ih1] at hrestBad
                have hf : entryFatal tok name e = false := by simp [entryFatal, he]
                simp [List.all_cons, hf, hrestBad, Except.isOk, Except.toBool]
              · intro sites skips h
                rw [hI] at h
                simp at h
              · intro msg h
                rw [hI] at h
                injection h with h'
                obtain ⟨sn, fields, attr, hm, hnone, hattr, hmsg⟩ := ih3 m hr
                exact ⟨sn, fields, attr, List.mem_cons_of_mem _ hm, hnone, hattr,
                  h' ▸ hmsg⟩
      | typeError =>
          have hobj := initEntry_not_obj_of_typeError he
          cases hr : initializeSites tok rest with
          | ok pr =>
              obtain ⟨sites', skips'⟩ := pr
              have hI : initializeSites tok ((name, e) :: rest)
                  = .ok (sites', name :: skips') := by
                simp [initializeSites, he, hr]
              have hrestOk : (initializeSites tok rest).isOk = true := by rw [hr]; rfl
              obtain ⟨g1, g2, g3⟩ := ih2 sites' skips' hr
              refine ⟨?_, ?_, ?_⟩
              · rw [hI]
                rw [ih1] at hrestOk
                have hf : entryFatal tok name e = false := by simp [entryFatal, he]
                simp [List.all_cons, hf, hrestOk, Except.isOk, Except.toBool]
              · intro sites skips h
                rw [hI] at h
                simp only [Except.ok.injEq, Prod.mk.injEq] at h
                obtain ⟨h1, h2⟩ := h
                subst h1; subst h2
                refine ⟨?_, ?_, ?_⟩
                · simp [List.filter_cons, hobj, g1]
                · simp [List.filter_cons, hobj, g2]
                · simp [List.filter_cons, hobj, g3]
              · intro msg h
                rw [hI] at h
                simp at h
          | error m =>
              have hI : initializeSites tok ((name, e) :: rest) = .error m := by
                simp [initializeSites, he, hr]
              have hrestBad : (initializeSites tok rest).isOk = false := by rw [hr]; rfl
              refine ⟨?_, ?_, ?_⟩
              · rw [hI]
                rw [ih1] at hrestBad
                have hf : entryFatal tok name e = false := by simp [entryFatal, he]
                simp [List.all_cons, hf, hrestBad, Except.isOk, Except.toBool]
              · intro sites skips h
                rw [hI] at h
                simp at h
              · intro msg h
                rw [hI] at h
                injection h with h'
                obtain ⟨sn, fields, attr, hm, hnone, hattr, hmsg⟩ := ih3 m hr
                exact ⟨sn, fields, attr, List.mem_cons_of_mem _ hm, hnone, hattr,
                  h' ▸ hmsg⟩

/-- Claim C3 witness: `rawGood` (two valid mapping entries and one
structurally corrupt entry) builds both records and skips `Junk`; `rawBad`
(one mapping entry missing `urlMain`) aborts with the message naming the
missing attribute. -/
theorem initializeSites_build_spec_witness :
    ([("SiteA", builtSiteA), ("SiteB", builtSiteB)].map Prod.fst
        = (rawGood.filter (fun p => isObjEntry p.2)).map Prod.fst ∧
      ([("SiteA", builtSiteA), ("SiteB", builtSiteB)] : List (String × SiteInformation)).length
        = (rawGood.filter (fun p => isObjEntry p.2)).length ∧
      ["Junk"] = (rawGood.filter (fun p => !isObjEntry p.2)).map Prod.fst) ∧
    (∃ site_name fields attr,
        (site_name, JValue.obj fields) ∈ rawBad ∧ alistGet attr fields = none ∧
        (attr = "urlMain" ∨ attr = "url" ∨ attr = "username_claimed") ∧
        missingMsg "urlMain" = missingMsg attr) :=
  ⟨(initializeSites_build_spec "tok0" rawGood).2.1 _ _ rfl,
   (initializeSites_build_spec "tok0" rawBad).2.2 (missingMsg "urlMain") rfl⟩

/-- Claim C10 (confirmed): every record a successful build produces stores
the entire raw entry mapping verbatim as its `information`, so the mapping
still holds `urlMain`, `url` and `username_claimed` with exactly the values
copied into the record's dedicated attributes (and `isNSFW` defaulted when
absent); in particular the anomaly detector's `url` lookup in
`information` returns the raw username-URL-template value. -/
theorem initializeSites_information_verbatim (tok : String)
    (raw : List (String × JValue)) (sites : List (String × SiteInformation))
    (skips : List String)
    (h : initializeSites tok raw = .ok (sites, skips)) :
    ∀ n s, (n, s) ∈ sites → ∃ fields,
      (n, JValue.obj fields) ∈ raw ∧ s.information = fields ∧
      alistGet "urlMain" fields = some s.url_home ∧
      alistGet "url" fields = some s.url_username_format ∧
      alistGet "username_claimed" fields = some s.username_claimed ∧
      s.is_nsfw = (alistGet "isNSFW" fields).getD (.bool false) ∧
      alistGet "url" s.information = some s.url_username_format := by
  induction raw generalizing sites skips with
  | nil =>
      simp only [initializeSites, Except.ok.injEq, Prod.mk.injEq] at h
      obtain ⟨h1, h2⟩ := h
      subst h1
      intro n s hm
      simp at hm
  | cons p rest ih =>
      obtain ⟨name, e⟩ := p
      cases he : initEntry tok name e with
      | missing attr =>
          have hI : initializeSites tok ((name, e) :: rest)
              = .error (missingMsg attr) := by
            simp [initializeSites, he]
          rw [hI] at h
          simp at h
      | ok s0 =>
          cases hr : initializeSites tok rest with
          | ok pr =>
              obtain ⟨sites', skips'⟩ := pr
              have hI : initializeSites tok ((name, e) :: rest)
                  = .ok ((name, s0) :: sites', skips') := by
                simp [initializeSites, he, hr]
              rw [hI] at h
              simp only [Except.ok.injEq, Prod.mk.injEq] at h
              obtain ⟨h1, h2⟩ := h
              subst h1
              intro n s hm
              rcases List.mem_cons.mp hm with hhd | htl
              · injection hhd with hn hs
                subst hn; subst hs
                obtain ⟨fields, hef, hinfo, hum, hu, huc, hnsfw⟩ := initEntry_ok_spec he
                subst hef
                refine ⟨fields, List.mem_cons_self _ _, hinfo, hum, hu, huc, hnsfw, ?_⟩
                rw [hinfo]
                exact hu
              · obtain ⟨fields, hmem, rest'⟩ := ih sites' skips' hr n s htl
                exact ⟨fields, List.mem_cons_of_mem _ hmem, rest'⟩
          | error m =>
              have hI : initializeSites tok ((name, e) :: rest) = .error m := by
                simp [initializeSites, he, hr]
              rw [hI] at h
              simp at h
      | typeError =>
          cases hr : initializeSites tok rest with
          | ok pr =>
              obtain ⟨sites', skips'⟩ := pr
              have hI : initializeSites tok ((name, e) :: rest)
                  = .ok (sites', name :: skips') := by
                simp [initializeSites, he, hr]
              rw [hI] at h
              simp only [Except.ok.injEq, Prod.mk.injEq] at h
              obtain ⟨h1, h2⟩ := h
              subst h1
              intro n s hm
              obtain ⟨fields, hmem, rest'⟩ := ih sites' skips' hr n s hm
              exact ⟨fields, List.mem_cons_of_mem _ hmem, rest'⟩
          | error m =>
              have hI : initializeSites tok ((name, e) :: rest) = .error m := by
                simp [initializeSites, he, hr]
              rw [hI] at h
              simp at h

/-- Claim C10 witness: the record built for `SiteB` of `rawGood` keeps the
whole raw mapping, including the required fields, and its `url` lookup
yields the raw template. -/
theorem initializeSites_information_verbatim_witness :
    ∃ fields, ("SiteB", JValue.obj fields) ∈ rawGood ∧ builtSiteB.information = fields ∧
      alistGet "urlMain" fields = some builtSiteB.url_home ∧
      alistGet "url" fields = some builtSiteB.url_username_format ∧
      alistGet "username_claimed" fields = some builtSiteB.username_claimed ∧
      builtSiteB.is_nsfw = (alistGet "isNSFW" fields).getD (.bool false) ∧
      alistGet "url" builtSiteB.information = some builtSiteB.url_username_format :=
  initializeSites_information_verbatim "tok0" rawGood
    [("SiteA", builtSiteA), ("SiteB", builtSiteB)] ["Junk"] rfl "SiteB" builtSiteB
    (List.mem_cons_of_mem _ (List.mem_cons_self _ _))
